import Mathlib

/-!
# Verification of the crypto momentum-strategy trading core

A shallow embedding, over exact rational arithmetic, of the components of the
repository that the checked claims concern:

* `RiskManager.can_open_position` and `RiskManager.update_position`
  (src/risk_manager.py),
* the position monitor of the trading engine, take-profit ladder, trailing stop and
  time stop (`monitor_positions`, `execute_take_profit`, `execute_exit` in
  src/momentum_strategy.py),
* the pricing of the order executor, iceberg splitting and journals
  (src/order_executor.py),
* the market-state assessment (src/market_analyzer.py),
* configuration round-trip (src/config.py).

Python `float` arithmetic is modelled by `ℚ`; Python dictionaries keyed by
strings are modelled by association lists; code that can raise is modelled with
`Except String`.  Side effects (orders sent to the exchange, performance
records, risk-manager calls) are made visible as explicit event lists so that
theorems can state which calls a code path performs.
-/

namespace Momentum

/-- Lookup in an association list with a default, the model of
`dict.get(key, default)` in Python. -/
def lookupD (l : List (String × ℚ)) (k : String) (d : ℚ) : ℚ :=
  match l.lookup k with
  | some v => v
  | none => d

/-- Assignment `d[k] = v` on an association list: replaces the binding if the
key is present, appends it otherwise (Python dicts keep one binding per
key). -/
def setKey {α : Type} (l : List (String × α)) (k : String) (v : α) :
    List (String × α) :=
  match l with
  | [] => [(k, v)]
  | (k₀, v₀) :: t => if k₀ = k then (k, v) :: t else (k₀, v₀) :: setKey t k v

/-! ## Risk manager (src/risk_manager.py)

State of the `RiskManager` object.  The Python class initializes
`current_positions`, `current_risk`, `sector_allocation`, `blacklist` and the
three configured caps; it never defines an attribute `position_sizes`, which
`update_position` nevertheless reads on the `"partial_close"` path. -/

structure RMState where
  currentPositions : List String
  currentRisk : ℚ
  sectorAllocation : List (String × ℚ)
  blacklist : List String
  maxRiskPerTrade : ℚ
  maxTotalRisk : ℚ
  maxSectorAllocation : ℚ
  deriving Repr, DecidableEq

/-- A trading signal (the fields `can_open_position` and
`calculate_position_size` read).  `sector` is `none` for Python `None`; the
Python truthiness test `if sector:` is false for both `None` and `""`. -/
structure Signal where
  symbol : String
  score : ℚ
  sector : Option String
  marketState : String
  entryPrice : ℚ
  profitTarget : ℚ
  deriving Repr, DecidableEq

/-- Model of `RiskManager.can_open_position` (src/risk_manager.py lines
188-218), transcribed check for check: total-risk cap, sector cap (only when
the sector of the signal is truthy), and the bear-market score floor. -/
def can_open_position (rm : RMState) (sig : Signal) : Bool :=
  if rm.currentRisk + rm.maxRiskPerTrade > rm.maxTotalRisk then
    false
  else
    let sectorBlocked : Bool :=
      match sig.sector with
      | none => false
      | some sec =>
        if sec = "" then false
        else
          decide (lookupD rm.sectorAllocation sec 0 + rm.maxRiskPerTrade >
            rm.maxSectorAllocation * rm.maxTotalRisk)
    if sectorBlocked then
      false
    else
      if (sig.marketState = "bear" ∨ sig.marketState = "strong_bear") ∧
          sig.score < 70 then
        false
      else
        true

/-- Model of `RiskManager.update_position` (src/risk_manager.py lines
267-299).

The `"close"` branch deletes the symbol, debits `current_risk`, then iterates
over `sector_allocation` debiting each sector by
`max_risk_per_trade / len(current_positions)`; when the deleted symbol was the
only position and the sector map is non-empty this divides by zero.  The
`"partial_close"` branch reads `self.position_sizes`, an attribute that is
never assigned anywhere in the class, so it raises `AttributeError` whenever it
executes.  Errors are surfaced as `Except.error`. -/
def update_position (rm : RMState) (symbol : String) (action : String)
    (size : Option ℚ) : Except String RMState :=
  if action = "open" then
    .ok { rm with currentPositions :=
      if symbol ∈ rm.currentPositions then rm.currentPositions
      else rm.currentPositions ++ [symbol] }
  else if action = "close" then
    if symbol ∈ rm.currentPositions then
      let positions := rm.currentPositions.erase symbol
      let risk := rm.currentRisk - rm.maxRiskPerTrade
      if rm.sectorAllocation = [] then
        .ok { rm with currentPositions := positions, currentRisk := risk }
      else if positions.length = 0 then
        .error "ZeroDivisionError: division by zero"
      else
        .ok { rm with
          currentPositions := positions
          currentRisk := risk
          sectorAllocation := rm.sectorAllocation.map fun p =>
            (p.1, p.2 - rm.maxRiskPerTrade / positions.length) }
    else
      .ok rm
  else if action = "partial_close" ∧ size.isSome then
    .error "AttributeError: RiskManager object has no attribute position_sizes"
  else
    .ok rm

/-! ## Trading engine (src/momentum_strategy.py)

The engine owns the position table.  Each position record carries the fields
written by `execute_entry` (lines 329-341); the `take_profit_k` flags are read
with `dict.get(..., False)`, so they are plain `Bool` fields starting `false`.
Times are measured in hours (the code compares
`position_duration.total_seconds() / 3600 > 4`). -/

structure Position where
  symbol : String
  entryTimeHours : ℚ
  entryPrice : ℚ
  positionSize : ℚ
  stopLoss : ℚ
  targetProfit : ℚ
  stage : Nat
  sector : Option String
  tp1 : Bool := false
  tp2 : Bool := false
  tp3 : Bool := false
  deriving Repr, DecidableEq

/-- Observable calls the engine makes while handling a position: exit orders
sent to the order executor, performance-tracker records, risk-manager
`update_position` calls, and stop-loss updates.  Every call site in
`monitor_positions` / `execute_take_profit` / `execute_exit` emits exactly one
of these events. -/
inductive EngineCall where
  | orderExit (symbol : String) (size price : ℚ) (reason : String)
  | perfRecord (symbol action : String) (entryPrice exitPrice size : ℚ)
  | riskUpdate (symbol action : String)
  | stopUpdate (symbol : String) (newStop size : ℚ)
  deriving Repr, DecidableEq

/-- The risk-manager calls among a list of engine events. -/
def riskUpdates (l : List EngineCall) : List EngineCall :=
  l.filter fun e => match e with
    | .riskUpdate _ _ => true
    | _ => false

/-- The performance-tracker records among a list of engine events. -/
def perfRecords (l : List EngineCall) : List EngineCall :=
  l.filter fun e => match e with
    | .perfRecord _ _ _ _ _ => true
    | _ => false

/-- The take-profit sales (exit orders with reason `"take_profit"`) among a
list of engine events. -/
def takeProfitSales (l : List EngineCall) : List EngineCall :=
  l.filter fun e => match e with
    | .orderExit _ _ _ r => r = "take_profit"
    | _ => false

/-- Model of `MomentumStrategy.execute_take_profit` (src/momentum_strategy.py
lines 448-473): send an exit order with reason `"take_profit"`; on success
(`fill = some avg`, the average fill price) decrement the position size and
write one performance record; on failure only log.  No call to the risk
manager appears in the source. -/
def execute_take_profit (pos : Position) (size price : ℚ) (fill : Option ℚ) :
    Position × List EngineCall :=
  match fill with
  | some avg =>
    ({ pos with positionSize := pos.positionSize - size },
     [.orderExit pos.symbol size price "take_profit",
      .perfRecord pos.symbol "take_profit" pos.entryPrice avg size])
  | none =>
    (pos, [.orderExit pos.symbol size price "take_profit"])

/-- Model of `MomentumStrategy.execute_exit` (src/momentum_strategy.py lines
475-497): send an exit order with reason `"exit_all"`; on success write one performance
record with action `"exit"`, reading the entry price from
`self.positions[symbol]` (which raises `KeyError` if the record was already
deleted — `recordPresent = false`).  No call to the risk manager appears in
the source.  Returns the emitted events and whether a `KeyError` escaped. -/
def execute_exit (pos : Position) (recordPresent : Bool) (size price : ℚ)
    (fill : Option ℚ) : List EngineCall × Bool :=
  match fill with
  | some avg =>
    if recordPresent then
      ([.orderExit pos.symbol size price "exit_all",
        .perfRecord pos.symbol "exit" pos.entryPrice avg size], false)
    else
      ([.orderExit pos.symbol size price "exit_all"], true)
  | none =>
    ([.orderExit pos.symbol size price "exit_all"], false)

/-- The trailing-stop step of `monitor_positions` (src/momentum_strategy.py
lines 397-407): above 3% profit, raise the stop to
`max(entry_price, stop_loss * 1.01)` when that is strictly greater than the
current stop, calling `update_stop_loss` on the executor. -/
def trail_update (pos : Position) (price : ℚ) : Position × List EngineCall :=
  if price / pos.entryPrice > 1.03 then
    let ns := max pos.entryPrice (pos.stopLoss * 1.01)
    if ns > pos.stopLoss then
      ({ pos with stopLoss := ns },
       [EngineCall.stopUpdate pos.symbol ns pos.positionSize])
    else (pos, [])
  else (pos, [])

/-- The take-profit `if/elif/elif` ladder of `monitor_positions`
(src/momentum_strategy.py lines 413-435): each branch sells the stated
fraction of the remaining size through `execute_take_profit` and marks its
flag; the third branch additionally deletes the position record (the middle
`Bool` of the result). -/
def tp_ladder (pos1 : Position) (profitPct targetPct price : ℚ)
    (tpFill : Option ℚ) : Position × Bool × List EngineCall :=
  if profitPct ≥ targetPct * 0.8 ∧ pos1.tp1 = false then
    let step := execute_take_profit pos1 (pos1.positionSize * 0.3) price tpFill
    ({ step.1 with tp1 := true }, false, step.2)
  else if profitPct ≥ targetPct ∧ pos1.tp2 = false then
    let step := execute_take_profit pos1 (pos1.positionSize * 0.4) price tpFill
    ({ step.1 with tp2 := true }, false, step.2)
  else if profitPct ≥ targetPct * 1.2 ∧ pos1.tp3 = false then
    let step := execute_take_profit pos1 (pos1.positionSize * 0.3) price tpFill
    ({ step.1 with tp3 := true }, true, step.2)
  else (pos1, false, [])

/-- One pass of `MomentumStrategy.monitor_positions` (src/momentum_strategy.py
lines 387-446) over a single position, at current price `price` and wall-clock
`nowHours`: trailing stop, take-profit `if/elif` ladder, then time stop.
`tpFill` / `exitFill` give the fill price reported by the order executor for a take-profit /
full-exit order (`none` = order failed).  Returns the surviving position
record (`none` once deleted) and the engine calls made. -/
def monitor_step (pos : Position) (price nowHours : ℚ)
    (tpFill exitFill : Option ℚ) : Option Position × List EngineCall :=
  let trail := trail_update pos price
  let profitPct := (price / pos.entryPrice - 1) * 100
  let targetPct := (pos.targetProfit / pos.entryPrice - 1) * 100
  let ladder := tp_ladder trail.1 profitPct targetPct price tpFill
  let pos2 := ladder.1
  let removed := ladder.2.1
  if nowHours - pos.entryTimeHours > 4 ∧ profitPct < 1 then
    let ex := execute_exit pos2 (removed = false) pos2.positionSize price exitFill
    (none, trail.2 ++ ladder.2.2 ++ ex.1)
  else
    (if removed then none else some pos2, trail.2 ++ ladder.2.2)

/-- The position record `MomentumStrategy.execute_entry` (src/momentum_strategy
lines 308-355) registers after a successful first-stage fill at average price
`avg`: half the computed size, stop loss at `0.98 · avg`, target at
`avg · (1 + profit_target)`, stage 1, all take-profit flags unset. -/
def engine_entry_position (sig : Signal) (calculatedSize : ℚ) (nowHours : ℚ)
    (avg : ℚ) : Position :=
  { symbol := sig.symbol
    entryTimeHours := nowHours
    entryPrice := avg
    positionSize := calculatedSize * 0.5
    stopLoss := avg * 0.98
    targetProfit := avg * (1 + sig.profitTarget)
    stage := 1
    sector := sig.sector }

/-! ## Order executor (src/order_executor.py) -/

/-- Quoted price/amount precision of the exchange: the `precision` entry of
the market
is either an integer number of decimal digits or a step quoted as a number
(the code tests `isinstance(precision, int)`). -/
inductive Precision where
  | digits (p : Int)
  | step (s : ℚ)
  deriving Repr, DecidableEq

/-- One tick: `1 / (10 ** precision)` for an integer precision, else the
quoted step itself (src/order_executor.py lines 915 and 952). -/
def tickSize : Precision → ℚ
  | .digits p => 1 / (10 : ℚ) ^ p
  | .step s => s

/-- Model of `OrderExecutor._calculate_buy_price` (src/order_executor.py
lines 885-920): with no asks return the target; if the target is at or above the
best ask return the best ask; otherwise the target plus one tick. -/
def calculate_buy_price (targetPrice : ℚ) (asks : List (ℚ × ℚ))
    (prec : Precision) : ℚ :=
  match asks with
  | [] => targetPrice
  | (lowestAsk, _) :: _ =>
    if targetPrice ≥ lowestAsk then lowestAsk
    else targetPrice + tickSize prec

/-- Model of `OrderExecutor._calculate_sell_price` (src/order_executor.py
lines 922-957): with no bids return the target; if the target is at or below the
best bid return the best bid; otherwise the target minus one tick. -/
def calculate_sell_price (targetPrice : ℚ) (bids : List (ℚ × ℚ))
    (prec : Precision) : ℚ :=
  match bids with
  | [] => targetPrice
  | (highestBid, _) :: _ =>
    if targetPrice ≤ highestBid then highestBid
    else targetPrice - tickSize prec

/-- A sub-order as journaled inside an iceberg record (the fields
`_log_entry_order` copies for each element of `sub_orders`; the timestamp is
omitted from the model). -/
structure SubOrder where
  orderId : String
  size : ℚ
  avgPrice : ℚ
  stage : String
  deriving Repr, DecidableEq

/-- Accumulated outcome of the iceberg batch loop: the successful sub-orders
(the `all_orders` list), the sizes and stage labels requested from
`_execute_single_entry` per attempt, the sleep durations performed after each
successful batch, and the running totals. -/
structure IcebergAcc where
  subOrders : List SubOrder
  requests : List (ℚ × String)
  sleeps : List ℚ
  totalFilled : ℚ
  totalCost : ℚ
  deriving Repr, DecidableEq

/-- The `for i in range(batch_count)` loop of `_execute_iceberg_entry`
(src/order_executor.py lines 227-245).  `fills i` is the outcome of the
`i`-th single entry — `some (orderId, filledSize, avgPrice)` on success,
`none` on failure (the loop then breaks) — and `rands i` is the `i`-th draw
of `random.random()`; the sleep after a successful batch is
`3 + random.random() * 4` seconds. -/
def iceberg_batches (stage : String) (size batchSize : ℚ)
    (fills : Nat → Option (String × ℚ × ℚ)) (rands : Nat → ℚ) :
    Nat → Nat → ℚ → ℚ → IcebergAcc
  | 0, _, tf, tc => ⟨[], [], [], tf, tc⟩
  | Nat.succ n, i, tf, tc =>
    let currentBatch := min batchSize (size - tf)
    let stg := stage ++ "_iceberg_" ++ toString (i + 1)
    match fills i with
    | some (oid, fsz, fpx) =>
      let rest := iceberg_batches stage size batchSize fills rands n (i + 1)
        (tf + fsz) (tc + fsz * fpx)
      ⟨⟨oid, fsz, fpx, stg⟩ :: rest.subOrders,
       (currentBatch, stg) :: rest.requests,
       (3 + rands i * 4) :: rest.sleeps,
       rest.totalFilled, rest.totalCost⟩
    | none => ⟨[], [(currentBatch, stg)], [], tf, tc⟩

/-- Result dictionary of an entry execution.  A single entry carries an
`order_id` and no `orders` key; the iceberg aggregate carries an `orders` key
and no `order_id`. -/
structure EntryResult where
  success : Bool
  orderId : Option String
  symbol : String
  size : ℚ
  avgPrice : ℚ
  stage : String
  isIceberg : Bool
  orders : Option (List SubOrder)
  deriving Repr, DecidableEq

/-- The batch count of `_execute_iceberg_entry`:
`min(5, math.ceil(size / iceberg_threshold))` (src/order_executor.py line
218). -/
def iceberg_batch_count (size threshold : ℚ) : Nat :=
  min 5 ⌈size / threshold⌉.toNat

/-- Model of `OrderExecutor._execute_iceberg_entry` (src/order_executor.py
lines 202-266): split into `min(5, ceil(size / iceberg_threshold))` batches of
`size / batch_count` each, run the batch loop, and report the size-weighted
average fill price (falling back to the target price when nothing filled). -/
def execute_iceberg_entry (symbol stage : String) (size price threshold : ℚ)
    (fills : Nat → Option (String × ℚ × ℚ)) (rands : Nat → ℚ) :
    EntryResult × IcebergAcc :=
  let batchCount : Nat := iceberg_batch_count size threshold
  let batchSize : ℚ := size / (batchCount : ℚ)
  let acc := iceberg_batches stage size batchSize fills rands batchCount 0 0 0
  let avgPrice := if acc.totalFilled > 0 then acc.totalCost / acc.totalFilled
    else price
  ({ success := decide (acc.totalFilled > 0)
     orderId := none
     symbol := symbol
     size := acc.totalFilled
     avgPrice := avgPrice
     stage := stage
     isIceberg := true
     orders := some acc.subOrders }, acc)

/-- An entry-journal record, the dictionary `_log_entry_order` appends
(src/order_executor.py lines 286-311). -/
structure EntryRecord where
  symbol : String
  exchangeId : String
  orderId : String
  size : ℚ
  avgPrice : ℚ
  stage : String
  isIceberg : Bool
  cost : ℚ
  subOrders : Option (List SubOrder)
  deriving Repr, DecidableEq

/-- The record `OrderExecutor._log_entry_order` builds (src/order_executor.py
lines 286-309): the `order_id` field defaults to `"multiple_orders"` when the
result has an `orders` key (iceberg) and `"unknown"` otherwise; `sub_orders`
is copied for iceberg results. -/
def entry_record_of (defaultExchange : String) (r : EntryResult)
    (exchangeId : Option String) : EntryRecord :=
  { symbol := r.symbol
    exchangeId := exchangeId.getD defaultExchange
    orderId := r.orderId.getD
      (if r.orders.isSome then "multiple_orders" else "unknown")
    size := r.size
    avgPrice := r.avgPrice
    stage := r.stage
    isIceberg := r.isIceberg
    cost := r.size * r.avgPrice
    subOrders := r.orders }

/-- Model of `OrderExecutor._log_entry_order` (src/order_executor.py lines
268-320): append exactly one record to the entry journal. -/
def log_entry_order (defaultExchange : String) (r : EntryResult)
    (exchangeId : Option String) (journal : List EntryRecord) :
    List EntryRecord :=
  journal ++ [entry_record_of defaultExchange r exchangeId]

/-- An exit-journal record (the fields `_log_exit_order` writes;
`entry_order_id` is present only when a matching entry record was found). -/
structure ExitRecord where
  symbol : String
  exchangeId : String
  orderId : String
  size : ℚ
  avgPrice : ℚ
  reason : String
  revenue : ℚ
  entryOrderId : Option String
  deriving Repr, DecidableEq

/-- The `exited_order_ids` set of `_calculate_trading_stats`
(src/order_executor.py lines 666-670): every `entry_order_id` occurring in an
exit record. -/
def exitedOrderIds (exits : List ExitRecord) : List String :=
  exits.filterMap (·.entryOrderId)

/-- The `active_positions` computation of `_calculate_trading_stats`
(src/order_executor.py lines 672-678): entries whose non-empty `order_id`
appears in the `entry_order_id` of no exit record. -/
def active_positions (entries : List EntryRecord) (exits : List ExitRecord) :
    List EntryRecord :=
  entries.filter fun e =>
    decide (e.orderId ≠ "" ∧ e.orderId ∉ exitedOrderIds exits)

/-! ## Market analyzer (src/market_analyzer.py) -/

/-- Arithmetic mean of a list of rationals (`Series.mean`). -/
def meanQ (l : List ℚ) : ℚ := l.sum / l.length

/-- The last `n` elements of a list (the window of
`Series.rolling(window=n)` at the final row). -/
def lastN (n : Nat) (l : List ℚ) : List ℚ := l.drop (l.length - n)

/-- Model of `MarketAnalyzer.assess_market_state` (src/market_analyzer.py
lines 50-127) as a function of the BTC daily closes, oldest first.  An empty
history returns `"neutral"` (the `btc_daily.empty` guard).  `ma20` is the
20-bar rolling mean at the last row when at least 20 bars exist, else the
mean of all closes (the `isna` fallback); the five-day change compares the
last close with `close.iloc[-5]` and is `0` below five bars. -/
def assess_market_state (closes : List ℚ) : String :=
  if closes = [] then "neutral"
  else
    let ma20 := if closes.length < 20 then meanQ closes
      else meanQ (lastN 20 closes)
    let latest := closes.getLast?.getD 0
    let fiveDayChange : ℚ :=
      if closes.length < 5 then 0
      else (latest / (closes[closes.length - 5]?).getD 0 - 1) * 100
    if latest > ma20 * 1.05 ∧ fiveDayChange > 5 then "strong_bull"
    else if latest > ma20 ∧ fiveDayChange > 0 then "bull"
    else if latest < ma20 * 0.95 ∧ fiveDayChange < -5 then "strong_bear"
    else if latest < ma20 ∧ fiveDayChange < 0 then "bear"
    else "neutral"

/-! ## Configuration (src/config.py)

`save_config` (lines 138-163) serializes a fixed set of attributes into one
document; `_load_config` (lines 53-85) reads each key back with a default.
The YAML/JSON encoder-decoder pair is an external library and is modelled as
faithful, so the file is represented by the document itself.  Strategy
configurations follow the schema of §6 of the specification
(`name → enabled / parameters / symbols`); parameter values are an arbitrary
type `V`. -/

structure StrategyConfig (V : Type) where
  enabled : Bool
  parameters : List (String × V)
  symbols : List String

structure ConfigState (V : Type) where
  exchanges : List String
  defaultExchange : String
  testMode : Bool
  dryRun : Bool
  logDir : String
  icebergThreshold : ℚ
  minOrderAmount : ℚ
  strategies : List (String × StrategyConfig V)

/-- The document `Config.save_config` writes: the same fields, keyed as in
src/config.py lines 141-151. -/
def save_config {V : Type} (c : ConfigState V) : ConfigState V :=
  { exchanges := c.exchanges
    defaultExchange := c.defaultExchange
    testMode := c.testMode
    dryRun := c.dryRun
    logDir := c.logDir
    icebergThreshold := c.icebergThreshold
    minOrderAmount := c.minOrderAmount
    strategies := c.strategies }

/-- Model of `Config._load_config` applied to a parsed document: each
attribute is `config.get(key, default)` (src/config.py lines 69-79). -/
def load_config {V : Type} (doc : ConfigState V) : ConfigState V :=
  { exchanges := doc.exchanges
    defaultExchange := doc.defaultExchange
    testMode := doc.testMode
    dryRun := doc.dryRun
    logDir := doc.logDir
    icebergThreshold := doc.icebergThreshold
    minOrderAmount := doc.minOrderAmount
    strategies := doc.strategies }

/-- Model of `Config.update_strategy_parameter` (src/config.py lines
165-184): create
the strategy entry if missing (enabled, empty parameters; the source writes
no `symbols` key, modelled as the empty list), ensure the `parameters`
mapping exists (always present in the typed model), store the parameter, and
save.  Returns the new in-memory state and the saved document. -/
def update_strategy_parameter {V : Type} (c : ConfigState V)
    (name k : String) (v : V) : ConfigState V × ConfigState V :=
  let strat : StrategyConfig V := match c.strategies.lookup name with
    | none => { enabled := true, parameters := [], symbols := [] }
    | some s => s
  let strat2 := { strat with parameters := setKey strat.parameters k v }
  let c2 : ConfigState V := { c with strategies := setKey c.strategies name strat2 }
  (c2, save_config c2)

/-! ## Concrete instances used by witnesses and counterexamples -/

/-- The position of scenario 5 of the specification: entered at 100 with
`target_pct = 20` (target profit 120), initial stop `0.98 · 100`, size 10, no
take-profit stage done. -/
def posC1 : Position :=
  { symbol := "POS/USDT"
    entryTimeHours := 0
    entryPrice := 100
    positionSize := 10
    stopLoss := 98
    targetProfit := 120
    stage := 1
    sector := none }

/-- A risk-manager state with room under every cap: no open risk, empty
sector allocation, 2% per trade, 10% total, 30% sector share. -/
def rmDemo : RMState :=
  { currentPositions := []
    currentRisk := 0
    sectorAllocation := []
    blacklist := []
    maxRiskPerTrade := 2
    maxTotalRisk := 10
    maxSectorAllocation := 0.3 }

/-- The SOL/USDT signal of scenarios 2-3 of the specification (score
`24 + 12.5 + 15 + 10 = 61.5`) in the given market regime. -/
def solSignal (regime : String) : Signal :=
  { symbol := "SOL/USDT"
    score := 61.5
    sector := some "DeFi"
    marketState := regime
    entryPrice := 150
    profitTarget := 0.06 }

/-- The position after the monitor tick at price 116: the trailing stop rose
to 100, take-profit 1 sold 30% of the 10 units, and `tp1` is marked. -/
def posC1a : Position :=
  { posC1 with stopLoss := 100, positionSize := 7, tp1 := true }

/-- The position after the further monitor tick at price 120: the trailing
stop rose to 101, take-profit 2 sold 40% of the remaining 7 units, and `tp2`
is marked. -/
def posC1b : Position :=
  { posC1a with stopLoss := 101, positionSize := 21 / 5, tp2 := true }

/-- Twenty BTC daily closes whose 20-bar mean is 40000, whose last close is
45000 and whose close five bars from the end is `45000 / 1.08`, so that the
five-day change is exactly +8% (scenario 1 of the specification). -/
def btcCloses : List ℚ :=
  [1070000 / 27, 1070000 / 27, 1070000 / 27, 1070000 / 27, 1070000 / 27,
   1070000 / 27, 1070000 / 27, 1070000 / 27, 1070000 / 27, 1070000 / 27,
   1070000 / 27, 1070000 / 27, 1070000 / 27, 1070000 / 27, 1070000 / 27,
   125000 / 3, 1070000 / 27, 1070000 / 27, 1070000 / 27, 45000]

/-- An iceberg execution in which every batch succeeds: batch `j` fills
`sz j` units at price `px j` under order id `oid j`, and the `j`-th draw of
`random.random()` is `rands j`. -/
def iceberg_run (symbol stage : String) (size price threshold : ℚ)
    (oid : Nat → String) (sz px : Nat → ℚ) (rands : Nat → ℚ) :
    EntryResult × IcebergAcc :=
  execute_iceberg_entry symbol stage size price threshold
    (fun j => some (oid j, sz j, px j)) rands

/-- A successful iceberg aggregate result: no top-level `order_id`, an
`orders` list present (here with one sub-order). -/
def icebergResultDemo : EntryResult :=
  { success := true
    orderId := none
    symbol := "ETH/USDT"
    size := 1
    avgPrice := 2
    stage := "first_stage"
    isIceberg := true
    orders := some [{ orderId := "sub1", size := 1, avgPrice := 2,
                      stage := "first_stage_iceberg_1" }] }

/-- The journal record written for `icebergResultDemo`. -/
def icebergRecordDemo : EntryRecord :=
  entry_record_of "binance" icebergResultDemo none

/-- A position on which a single monitor pass fires take-profit 3 and the
time stop together: entered at 100 with `target_profit = 100.5`
(`target_pct = 0.5`), stages 1 and 2 already done, more than four hours old.
At price 100.6 the profit is 0.6% — at least `1.2 · target_pct = 0.6` (TP3
fires and deletes the record) and below 1% (the time stop fires
afterwards). -/
def posC2 : Position :=
  { symbol := "POS/USDT"
    entryTimeHours := 0
    entryPrice := 100
    positionSize := 4
    stopLoss := 98
    targetProfit := 201 / 2
    stage := 1
    sector := none
    tp1 := true
    tp2 := true
    tp3 := false }

/-! # Theorems for the checked claims -/

theorem lookup_setKey {α : Type} (l : List (String × α)) (k : String) (v : α) :
    (setKey l k v).lookup k = some v := by
  induction l with
  | nil => simp [setKey]
  | cons h t ih =>
    obtain ⟨k₀, v₀⟩ := h
    by_cases hk : k₀ = k
    · simp [setKey, hk, List.lookup]
    · have hne : (k == k₀) = false := beq_false_of_ne fun he => hk he.symm
      simp [setKey, hk, List.lookup, hne, ih]

/-- C3: the claim states that for every risk-manager state and registered
symbol, `update_position(symbol, "close")` and
`update_position(symbol, "partial_close", size)` complete without raising
and decrement the risk counters.  The code contradicts its own contract:
the `"partial_close"` branch reads `self.position_sizes`, an attribute that
is never assigned anywhere, so it raises `AttributeError` on every call;
the `"close"` branch divides by `len(current_positions)` after deleting the
symbol, raising `ZeroDivisionError` whenever the closed symbol was the only
open position and the sector-allocation map is non-empty. -/
theorem claim3_update_position_raises :
    (∀ (rm : RMState) (symbol : String) (size : ℚ),
      update_position rm symbol "partial_close" (some size) =
        Except.error
          "AttributeError: RiskManager object has no attribute position_sizes") ∧
    update_position
        { currentPositions := ["BTC/USDT"], currentRisk := 2,
          sectorAllocation := [("DeFi", 2)], blacklist := [],
          maxRiskPerTrade := 2, maxTotalRisk := 10, maxSectorAllocation := 0.3 }
        "BTC/USDT" "close" none =
      Except.error "ZeroDivisionError: division by zero" :=
  ⟨fun _ _ _ => rfl, rfl⟩

/-- C8: after `update_strategy_parameter(name, k, v)` saves the
configuration, reloading the saved document yields a strategies map binding
`name` to a strategy whose parameters bind `k` to `v`. -/
theorem claim8_config_roundtrip {V : Type} (c : ConfigState V)
    (name k : String) (v : V) :
    (((load_config (update_strategy_parameter c name k v).2).strategies.lookup
        name).map fun s => s.parameters.lookup k) = some (some v) := by
  unfold update_strategy_parameter load_config save_config
  simp [lookup_setKey]

/-- C2 counterexample: a concrete executed take-profit sale and a concrete
executed full exit each write one performance-tracker record but perform no
`risk_manager.update_position` call, refuting the claim that every executed
exit is followed by an `update_position` call with `"partial_close"` or
`"close"`. -/
theorem claim2_counterexample :
    (execute_take_profit posC1 3 116 (some 116)).2 =
      [EngineCall.orderExit "POS/USDT" 3 116 "take_profit",
       EngineCall.perfRecord "POS/USDT" "take_profit" 100 116 3] ∧
    riskUpdates (execute_take_profit posC1 3 116 (some 116)).2 = [] ∧
    (execute_exit posC1 true 10 (201 / 2) (some (201 / 2))).1 =
      [EngineCall.orderExit "POS/USDT" 10 (201 / 2) "exit_all",
       EngineCall.perfRecord "POS/USDT" "exit" 100 (201 / 2) 10] ∧
    riskUpdates (execute_exit posC1 true 10 (201 / 2) (some (201 / 2))).1 = [] :=
  ⟨rfl, rfl, rfl, rfl⟩

/-- A monitor pass on `posC2` at price 100.6, more than four hours after
entry: take-profit 3 fires (selling 30% of the 4 units) and deletes the
record; the time stop then still executes a full exit order for the
remaining 2.8 units, but the `record_trade` entry-price lookup of the
deleted record raises `KeyError` (caught by the monitor), so no
performance record with action `"exit"` is written. -/
theorem monitor_posC2_timestop_after_tp3 :
    monitor_step posC2 (503 / 5) 5 (some (503 / 5)) (some (503 / 5)) =
      (none,
       [EngineCall.orderExit "POS/USDT" (6 / 5) (503 / 5) "take_profit",
        EngineCall.perfRecord "POS/USDT" "take_profit" 100 (503 / 5) (6 / 5),
        EngineCall.orderExit "POS/USDT" (14 / 5) (503 / 5) "exit_all"]) := by
  norm_num [monitor_step, trail_update, tp_ladder, execute_take_profit,
    execute_exit, posC2, max_def]

/-- C2 (amended): after every executed exit the engine performs no
`risk_manager.update_position` call.  Each successful take-profit sale
writes exactly one performance-tracker trade record, and each successful
full exit writes exactly one record when the position record is still
present; on the one remaining path — the time stop firing in the same
monitor pass after take-profit 3 already deleted the record, reachable as
the pass on `posC2` at price 100.6 shows — the exit order is executed but
no record is written, because the `record_trade` entry-price lookup raises
`KeyError`. -/
theorem claim2_exit_records_amended (pos : Position) (size price : ℚ)
    (fill : Option ℚ) (present : Bool) :
    riskUpdates (execute_take_profit pos size price fill).2 = [] ∧
    riskUpdates (execute_exit pos present size price fill).1 = [] ∧
    (∀ avg, fill = some avg →
      perfRecords (execute_take_profit pos size price fill).2 =
        [EngineCall.perfRecord pos.symbol "take_profit" pos.entryPrice avg size]) ∧
    (∀ avg, fill = some avg → present = true →
      perfRecords (execute_exit pos present size price fill).1 =
        [EngineCall.perfRecord pos.symbol "exit" pos.entryPrice avg size]) ∧
    (∀ avg, fill = some avg → present = false →
      perfRecords (execute_exit pos present size price fill).1 = [] ∧
      (execute_exit pos present size price fill).2 = true) ∧
    monitor_step posC2 (503 / 5) 5 (some (503 / 5)) (some (503 / 5)) =
      (none,
       [EngineCall.orderExit "POS/USDT" (6 / 5) (503 / 5) "take_profit",
        EngineCall.perfRecord "POS/USDT" "take_profit" 100 (503 / 5) (6 / 5),
        EngineCall.orderExit "POS/USDT" (14 / 5) (503 / 5) "exit_all"]) := by
  refine ⟨?_, ?_, ?_, ?_, ?_, monitor_posC2_timestop_after_tp3⟩
  · cases fill <;> rfl
  · cases fill with
    | none => rfl
    | some a => cases present <;> rfl
  · intro avg h
    cases h
    rfl
  · intro avg h hp
    cases h
    cases hp
    rfl
  · intro avg h hp
    cases h
    cases hp
    exact ⟨rfl, rfl⟩

/-- C2 witness: the amended statement evaluated on a concrete successful
take-profit sale, a successful full exit with the position record present,
and a full exit attempted after the record was already deleted. -/
theorem claim2_exit_records_amended_witness :
    riskUpdates (execute_take_profit posC1 3 116 (some 116)).2 = [] ∧
    riskUpdates (execute_exit posC1 true 10 116 (some 116)).1 = [] ∧
    perfRecords (execute_take_profit posC1 3 116 (some 116)).2 =
      [EngineCall.perfRecord "POS/USDT" "take_profit" 100 116 3] ∧
    perfRecords (execute_exit posC1 true 10 116 (some 116)).1 =
      [EngineCall.perfRecord "POS/USDT" "exit" 100 116 10] ∧
    perfRecords (execute_exit posC1 false 10 116 (some 116)).1 = [] ∧
    (execute_exit posC1 false 10 116 (some 116)).2 = true := by
  obtain ⟨h1, _, h3, _, _, _⟩ :=
    claim2_exit_records_amended posC1 3 116 (some 116) true
  obtain ⟨_, g2, _, g4, _, _⟩ :=
    claim2_exit_records_amended posC1 10 116 (some 116) true
  obtain ⟨_, _, _, _, k5, _⟩ :=
    claim2_exit_records_amended posC1 10 116 (some 116) false
  obtain ⟨k5a, k5b⟩ := k5 116 rfl rfl
  exact ⟨h1, g2, h3 116 rfl, g4 116 rfl rfl, k5a, k5b⟩

/-- C4 counterexample: with best ask 90 below the target 100 the computed
buy limit price is the best ask, strictly below the target; with best bid
110 above the target the computed sell limit price is strictly above the
target — refuting buy-price ≥ target and sell-price ≤ target. -/
theorem claim4_counterexample :
    calculate_buy_price 100 [(90, 1)] (Precision.digits 2) = 90 ∧
    ¬ (100 : ℚ) ≤ calculate_buy_price 100 [(90, 1)] (Precision.digits 2) ∧
    calculate_sell_price 100 [(110, 1)] (Precision.digits 2) = 110 ∧
    ¬ calculate_sell_price 100 [(110, 1)] (Precision.digits 2) ≤ 100 := by
  refine ⟨rfl, by decide, rfl, by decide⟩

/-- C4 (amended): on a non-empty ask side, when the target is strictly below
the best ask the computed buy price is the target plus one tick, strictly
above the target; when the target is at or above the best ask the computed
buy price is the best ask itself (hence at most the target).  Mirror
statement for sells against the best bid. -/
theorem claim4_pricing_amended (target a b qa qb : ℚ)
    (asksTail bidsTail : List (ℚ × ℚ)) (prec : Precision)
    (htick : 0 < tickSize prec) :
    (target < a →
      calculate_buy_price target ((a, qa) :: asksTail) prec =
        target + tickSize prec ∧
      target < calculate_buy_price target ((a, qa) :: asksTail) prec) ∧
    (a ≤ target →
      calculate_buy_price target ((a, qa) :: asksTail) prec = a) ∧
    (b < target →
      calculate_sell_price target ((b, qb) :: bidsTail) prec =
        target - tickSize prec ∧
      calculate_sell_price target ((b, qb) :: bidsTail) prec < target) ∧
    (target ≤ b →
      calculate_sell_price target ((b, qb) :: bidsTail) prec = b) := by
  refine ⟨?_, ?_, ?_, ?_⟩
  · intro h
    have hn : ¬ target ≥ a := not_le.mpr h
    rw [calculate_buy_price, if_neg hn]
    exact ⟨rfl, by linarith⟩
  · intro h
    rw [calculate_buy_price, if_pos h]
  · intro h
    have hn : ¬ target ≤ b := not_le.mpr h
    rw [calculate_sell_price, if_neg hn]
    exact ⟨rfl, by linarith⟩
  · intro h
    rw [calculate_sell_price, if_pos h]

/-- C4 witness: the amended pricing statement evaluated on concrete books
with one tick of `1/100` (price precision 2). -/
theorem claim4_pricing_amended_witness :
    calculate_buy_price 100 [(101, 5)] (Precision.digits 2) =
      100 + tickSize (Precision.digits 2) ∧
    (100 : ℚ) < calculate_buy_price 100 [(101, 5)] (Precision.digits 2) ∧
    calculate_buy_price 100 [(90, 5)] (Precision.digits 2) = 90 ∧
    calculate_sell_price 100 [(99, 5)] (Precision.digits 2) =
      100 - tickSize (Precision.digits 2) ∧
    calculate_sell_price 100 [(99, 5)] (Precision.digits 2) < 100 ∧
    calculate_sell_price 100 [(110, 5)] (Precision.digits 2) = 110 := by
  have h1 := claim4_pricing_amended 100 101 99 5 5 [] [] (Precision.digits 2)
    (by norm_num [tickSize])
  have h2 := claim4_pricing_amended 100 90 110 5 5 [] [] (Precision.digits 2)
    (by norm_num [tickSize])
  exact ⟨(h1.1 (by norm_num)).1, (h1.1 (by norm_num)).2,
    h2.2.1 (by norm_num), (h1.2.2.1 (by norm_num)).1,
    (h1.2.2.1 (by norm_num)).2, h2.2.2.2 (by norm_num)⟩

/-- C5: `can_open_position` returns false exactly when (a) the current total
risk plus `max_risk_per_trade` exceeds `max_total_risk`, or (b) the signal
carries a (truthy) sector whose allocation plus `max_risk_per_trade` exceeds
`max_sector_allocation · max_total_risk`, or (c) the market state is bear or
strong-bear and the score is below 70; and the score-61.5 SOL signal is
rejected in a bear regime but accepted in a bull regime when the caps do not
bind. -/
theorem claim5_can_open_position :
    (∀ (rm : RMState) (sig : Signal),
      can_open_position rm sig = false ↔
        (rm.maxTotalRisk < rm.currentRisk + rm.maxRiskPerTrade ∨
          (∃ sec, sig.sector = some sec ∧ sec ≠ "" ∧
            rm.maxSectorAllocation * rm.maxTotalRisk <
              lookupD rm.sectorAllocation sec 0 + rm.maxRiskPerTrade) ∨
          ((sig.marketState = "bear" ∨ sig.marketState = "strong_bear") ∧
            sig.score < 70))) ∧
    can_open_position rmDemo (solSignal "bear") = false ∧
    can_open_position rmDemo (solSignal "bull") = true := by
  have main : ∀ (rm : RMState) (sig : Signal),
      can_open_position rm sig = false ↔
        (rm.maxTotalRisk < rm.currentRisk + rm.maxRiskPerTrade ∨
          (∃ sec, sig.sector = some sec ∧ sec ≠ "" ∧
            rm.maxSectorAllocation * rm.maxTotalRisk <
              lookupD rm.sectorAllocation sec 0 + rm.maxRiskPerTrade) ∨
          ((sig.marketState = "bear" ∨ sig.marketState = "strong_bear") ∧
            sig.score < 70)) := by
    intro rm sig
    simp only [can_open_position]
    split_ifs with h1 h2 h3
    · exact iff_of_true rfl (Or.inl h1)
    · refine iff_of_true rfl (Or.inr (Or.inl ?_))
      rcases hsec : sig.sector with _ | sec
      · simp only [hsec] at h2
        exact absurd h2 (by simp)
      · simp only [hsec] at h2
        by_cases he : sec = ""
        · rw [if_pos he] at h2
          exact absurd h2 (by simp)
        · rw [if_neg he] at h2
          exact ⟨sec, rfl, he, of_decide_eq_true h2⟩
    · exact iff_of_true rfl (Or.inr (Or.inr h3))
    · refine iff_of_false (by simp) ?_
      rintro (h | ⟨sec, hs, hne, hgt⟩ | h)
      · exact h1 h
      · apply h2
        simp only [hs]
        rw [if_neg hne]
        exact decide_eq_true hgt
      · exact h3 h
  refine ⟨main, ?_, ?_⟩
  · exact (main rmDemo (solSignal "bear")).mpr
      (Or.inr (Or.inr ⟨Or.inl rfl, by norm_num [solSignal]⟩))
  · rcases Bool.eq_false_or_eq_true (can_open_position rmDemo (solSignal "bull"))
      with hb | hb
    · exact hb
    · exfalso
      rcases (main rmDemo (solSignal "bull")).mp hb with h | ⟨sec, hs, hne, hgt⟩ | h
      · norm_num [rmDemo] at h
      · rw [show (solSignal "bull").sector = some "DeFi" from rfl] at hs
        cases hs
        norm_num [rmDemo, lookupD] at hgt
      · rw [show (solSignal "bull").marketState = "bull" from rfl] at h
        simp at h

theorem execute_take_profit_stopLoss (pos : Position) (size price : ℚ)
    (fill : Option ℚ) :
    (execute_take_profit pos size price fill).1.stopLoss = pos.stopLoss := by
  cases fill <;> rfl

theorem tp_ladder_stopLoss (pos1 : Position) (pp tp price : ℚ)
    (fill : Option ℚ) :
    (tp_ladder pos1 pp tp price fill).1.stopLoss = pos1.stopLoss := by
  simp only [tp_ladder]
  split_ifs <;> cases fill <;> rfl

/-- The trailing stop either leaves `stop_loss` unchanged or raises it to
`max(entry_price, stop_loss · 1.01)`, in the latter case strictly. -/
theorem trail_update_stopLoss (pos : Position) (price : ℚ) :
    (trail_update pos price).1.stopLoss = pos.stopLoss ∨
    ((trail_update pos price).1.stopLoss =
        max pos.entryPrice (pos.stopLoss * 1.01) ∧
      pos.stopLoss < (trail_update pos price).1.stopLoss) := by
  simp only [trail_update]
  split_ifs with h1 h2
  · exact Or.inr ⟨rfl, h2⟩
  · exact Or.inl rfl
  · exact Or.inl rfl

/-- A position that survives a monitor pass carries the trailing-stop value
of that pass: the take-profit ladder and the time stop never touch
`stop_loss`. -/
theorem monitor_step_fst (pos : Position) (price nowHours : ℚ)
    (tf ef : Option ℚ) :
    (monitor_step pos price nowHours tf ef).1 = none ∨
    (monitor_step pos price nowHours tf ef).1 =
      some (tp_ladder (trail_update pos price).1
        ((price / pos.entryPrice - 1) * 100)
        ((pos.targetProfit / pos.entryPrice - 1) * 100) price tf).1 := by
  simp only [monitor_step]
  split_ifs <;> simp

theorem monitor_step_stopLoss (pos : Position) (price nowHours : ℚ)
    (tf ef : Option ℚ) (p2 : Position)
    (h : (monitor_step pos price nowHours tf ef).1 = some p2) :
    p2.stopLoss = (trail_update pos price).1.stopLoss := by
  rcases monitor_step_fst pos price nowHours tf ef with h0 | h0
  · rw [h0] at h
    exact Option.noConfusion h
  · rw [h0] at h
    cases h
    exact tp_ladder_stopLoss (trail_update pos price).1 _ _ price tf

/-- C9: `stop_loss` is non-decreasing over the lifetime of a position — it is
initialized at entry to `0.98` times the entry fill price, and a monitor
pass either leaves it unchanged or replaces it with
`max(entry_price, stop_loss · 1.01)`, and only when that value is strictly
greater than the current stop. -/
theorem claim9_stop_loss_monotone :
    (∀ (sig : Signal) (calculatedSize nowHours avg : ℚ),
      (engine_entry_position sig calculatedSize nowHours avg).stopLoss =
        avg * 0.98) ∧
    (∀ (pos : Position) (price nowHours : ℚ) (tf ef : Option ℚ)
      (p2 : Position),
      (monitor_step pos price nowHours tf ef).1 = some p2 →
        pos.stopLoss ≤ p2.stopLoss ∧
        (p2.stopLoss ≠ pos.stopLoss →
          p2.stopLoss = max pos.entryPrice (pos.stopLoss * 1.01) ∧
          pos.stopLoss < p2.stopLoss)) := by
  constructor
  · intro sig s n a
    rfl
  · intro pos price nowHours tf ef p2 h
    have hs := monitor_step_stopLoss pos price nowHours tf ef p2 h
    rcases trail_update_stopLoss pos price with h0 | ⟨hmax, hlt⟩
    · rw [h0] at hs
      exact ⟨le_of_eq hs.symm, fun hne => absurd hs hne⟩
    · rw [hs]
      exact ⟨le_of_lt hlt, fun _ => ⟨hmax, hlt⟩⟩

/-- Monitor tick on `posC1` at price 116 (profit exactly 16% = 0.8 · 20%):
the stop rises to 100, and take-profit 1 — not "no take-profit" — fires,
selling 30% of the 10 units. -/
theorem monitor_posC1_at116 :
    monitor_step posC1 116 0 (some 116) (some 116) =
      (some posC1a,
       [EngineCall.stopUpdate "POS/USDT" 100 10,
        EngineCall.orderExit "POS/USDT" 3 116 "take_profit",
        EngineCall.perfRecord "POS/USDT" "take_profit" 100 116 3]) := by
  norm_num [monitor_step, trail_update, tp_ladder, execute_take_profit,
    posC1, posC1a, max_def]

/-- Monitor tick after that, at price 120 (profit 20% = target): the stop
rises to 101, and take-profit 2 fires, selling 40% of the remaining 7
units. -/
theorem monitor_posC1_at120 :
    monitor_step posC1a 120 0 (some 120) (some 120) =
      (some posC1b,
       [EngineCall.stopUpdate "POS/USDT" 101 7,
        EngineCall.orderExit "POS/USDT" (14 / 5) 120 "take_profit",
        EngineCall.perfRecord "POS/USDT" "take_profit" 100 120 (14 / 5)]) := by
  norm_num [monitor_step, trail_update, tp_ladder, execute_take_profit,
    posC1, posC1a, posC1b, max_def]

/-- Monitor tick after that, at price 124 (profit 24% = 1.2 · target): the
stop rises to 102.01, take-profit 3 fires selling 30% of the remaining 4.2
units, and the position record is removed. -/
theorem monitor_posC1_at124 :
    monitor_step posC1b 124 0 (some 124) (some 124) =
      (none,
       [EngineCall.stopUpdate "POS/USDT" (10201 / 100) (21 / 5),
        EngineCall.orderExit "POS/USDT" (63 / 50) 124 "take_profit",
        EngineCall.perfRecord "POS/USDT" "take_profit" 100 124 (63 / 50)]) := by
  norm_num [monitor_step, trail_update, tp_ladder, execute_take_profit,
    posC1, posC1a, posC1b, max_def]

/-- C9 witness: the monotonicity statement applied to the concrete entry and
to the concrete monitor pass at price 116, whose surviving position is
`posC1a`. -/
theorem claim9_stop_loss_monotone_witness :
    (engine_entry_position (solSignal "bull") 10 0 100).stopLoss =
      100 * 0.98 ∧
    posC1.stopLoss ≤ posC1a.stopLoss ∧
    (posC1a.stopLoss ≠ posC1.stopLoss →
      posC1a.stopLoss = max posC1.entryPrice (posC1.stopLoss * 1.01) ∧
      posC1.stopLoss < posC1a.stopLoss) := by
  obtain ⟨h1, h2⟩ := claim9_stop_loss_monotone
  have h3 := h2 posC1 116 0 (some 116) (some 116) posC1a
    (by rw [monitor_posC1_at116])
  exact ⟨h1 (solSignal "bull") 10 0 100, h3.1, h3.2⟩

theorem takeProfitSales_nil : takeProfitSales [] = [] := rfl

theorem takeProfitSales_append (a b : List EngineCall) :
    takeProfitSales (a ++ b) = takeProfitSales a ++ takeProfitSales b := by
  simp [takeProfitSales, List.filter_append]

theorem trail_update_tp_sales (pos : Position) (price : ℚ) :
    takeProfitSales (trail_update pos price).2 = [] := by
  simp only [trail_update]
  split_ifs <;> rfl

theorem execute_take_profit_tp_sales (pos : Position) (size price : ℚ)
    (fill : Option ℚ) :
    takeProfitSales (execute_take_profit pos size price fill).2 =
      [EngineCall.orderExit pos.symbol size price "take_profit"] := by
  cases fill <;> rfl

theorem execute_exit_tp_sales (pos : Position) (present : Bool)
    (size price : ℚ) (fill : Option ℚ) :
    takeProfitSales (execute_exit pos present size price fill).1 = [] := by
  cases fill with
  | none => rfl
  | some a => cases present <;> rfl

/-- The `if/elif/elif` ladder sends at most one take-profit order per pass. -/
theorem tp_ladder_tp_sales_len (pos1 : Position) (pp tp price : ℚ)
    (fill : Option ℚ) :
    (takeProfitSales (tp_ladder pos1 pp tp price fill).2.2).length ≤ 1 := by
  simp only [tp_ladder]
  split_ifs <;>
    simp [execute_take_profit_tp_sales, takeProfitSales_nil]

/-- One monitor pass sends at most one take-profit order: the trailing stop
and the time stop contribute none, and the ladder at most one. -/
theorem monitor_step_tp_sales_len (pos : Position) (price nowHours : ℚ)
    (tf ef : Option ℚ) :
    (takeProfitSales (monitor_step pos price nowHours tf ef).2).length ≤ 1 := by
  simp only [monitor_step]
  split_ifs <;>
    simp only [takeProfitSales_append, trail_update_tp_sales,
      execute_exit_tp_sales, List.nil_append, List.append_nil,
      List.length_append, List.length_nil] <;>
    simpa using tp_ladder_tp_sales_len (trail_update pos price).1
      ((price / pos.entryPrice - 1) * 100)
      ((pos.targetProfit / pos.entryPrice - 1) * 100) price tf

/-- C1 counterexample: at price 116 (profit exactly 16% with
`target_pct = 20`) and no take-profit stage done, the monitor fires
take-profit 1 — the comparison `profit_pct >= target_pct * 0.8` is
inclusive — whereas the claim states no take-profit fires there. -/
theorem claim1_counterexample :
    takeProfitSales (monitor_step posC1 116 0 (some 116) (some 116)).2 =
      [EngineCall.orderExit "POS/USDT" 3 116 "take_profit"] ∧
    ((monitor_step posC1 116 0 (some 116) (some 116)).1.map Position.tp1) =
      some true := by
  rw [monitor_posC1_at116]
  exact ⟨rfl, rfl⟩

/-- C1 (amended): the ladder fires at most one stage per pass, and each
stage at most once and in order; for the position entered at 100 with
`target_pct = 20` and no stage done, at price 116 (profit 16% = 0.8·target)
TP1 fires selling 30% of the size and `tp1` is marked; at 120 (profit 20%)
TP2 fires selling 40% of the remaining size and `tp2` is marked; at 124
(profit 24%) TP3 fires selling 30% of the remaining size, `tp3` is marked,
and the position record is removed. -/
theorem claim1_tp_ladder_amended :
    (∀ (pos : Position) (price nowHours : ℚ) (tf ef : Option ℚ),
      (takeProfitSales (monitor_step pos price nowHours tf ef).2).length ≤ 1) ∧
    monitor_step posC1 116 0 (some 116) (some 116) =
      (some posC1a,
       [EngineCall.stopUpdate "POS/USDT" 100 10,
        EngineCall.orderExit "POS/USDT" 3 116 "take_profit",
        EngineCall.perfRecord "POS/USDT" "take_profit" 100 116 3]) ∧
    monitor_step posC1a 120 0 (some 120) (some 120) =
      (some posC1b,
       [EngineCall.stopUpdate "POS/USDT" 101 7,
        EngineCall.orderExit "POS/USDT" (14 / 5) 120 "take_profit",
        EngineCall.perfRecord "POS/USDT" "take_profit" 100 120 (14 / 5)]) ∧
    monitor_step posC1b 124 0 (some 124) (some 124) =
      (none,
       [EngineCall.stopUpdate "POS/USDT" (10201 / 100) (21 / 5),
        EngineCall.orderExit "POS/USDT" (63 / 50) 124 "take_profit",
        EngineCall.perfRecord "POS/USDT" "take_profit" 100 124 (63 / 50)]) :=
  ⟨monitor_step_tp_sales_len, monitor_posC1_at116, monitor_posC1_at120,
    monitor_posC1_at124⟩

/-- C6: for every history of at least 20 daily bars, the market state is the
first-match ladder over the 20-bar simple moving average (the sum of the last
20 closes over 20) and the five-day change
`(last / close_five_bars_back - 1) · 100`: strong_bull above `1.05 · SMA`
with change above +5, bull above the SMA with positive change, strong_bear
below `0.95 · SMA` with change below −5, bear below the SMA with negative
change, neutral otherwise. -/
theorem claim6_market_state (closes : List ℚ) (h : 20 ≤ closes.length) :
    assess_market_state closes =
      (let sma := (lastN 20 closes).sum / 20
       let latest := closes.getLast?.getD 0
       let change := (latest / (closes[closes.length - 5]?).getD 0 - 1) * 100
       if latest > sma * 1.05 ∧ change > 5 then "strong_bull"
       else if latest > sma ∧ change > 0 then "bull"
       else if latest < sma * 0.95 ∧ change < -5 then "strong_bear"
       else if latest < sma ∧ change < 0 then "bear"
       else "neutral") := by
  have hne : closes ≠ [] := by
    intro he
    rw [he] at h
    simp at h
  have hlen20 : ¬ closes.length < 20 := not_lt.mpr h
  have hlen5 : ¬ closes.length < 5 := not_lt.mpr (le_trans (by norm_num) h)
  have hlast : ((lastN 20 closes).length : ℚ) = 20 := by
    have : (lastN 20 closes).length = 20 := by
      simp only [lastN, List.length_drop]
      omega
    rw [this]
    norm_num
  simp only [assess_market_state, meanQ, hne, hlen20, hlen5, if_false,
    ite_false, hlast]

/-- C6 witness: the ladder applied to the concrete 20-bar history with last
close 45000, 20-day SMA 40000 and five-day change +8% yields strong_bull. -/
theorem claim6_market_state_witness :
    20 ≤ btcCloses.length ∧ assess_market_state btcCloses = "strong_bull" := by
  have hlen : (20 : ℕ) ≤ btcCloses.length := by
    simp [btcCloses]
  refine ⟨hlen, ?_⟩
  rw [claim6_market_state btcCloses hlen]
  norm_num [btcCloses, lastN]

theorem range_map_succ_shift {α : Type} (g h : Nat → α) (m : Nat)
    (hg : ∀ j, g (j + 1) = h j) :
    (List.range (m + 1)).map g = g 0 :: (List.range m).map h := by
  rw [List.range_succ_eq_map, List.map_cons, List.map_map]
  refine List.cons_eq_cons.mpr ⟨rfl, ?_⟩
  apply List.map_congr_left
  intro j hj
  simp only [Function.comp_apply, Nat.succ_eq_add_one]
  exact hg j

/-- Characterization of the iceberg batch loop when every single entry
succeeds: batch `i + j` journals order id `oid (i+j)` with stage
`stage_iceberg_(i+j+1)`, one sleep of `3 + rands (i+j) · 4` follows each
batch, and the totals accumulate the fill sizes and costs. -/
theorem iceberg_batches_success (stage : String) (size batchSize : ℚ)
    (oid : Nat → String) (sz px : Nat → ℚ) (rands : Nat → ℚ) :
    ∀ (n i : Nat) (tf tc : ℚ),
      (iceberg_batches stage size batchSize
          (fun j => some (oid j, sz j, px j)) rands n i tf tc).subOrders.map
            SubOrder.stage =
        ((List.range n).map fun j =>
          stage ++ "_iceberg_" ++ toString (i + j + 1)) ∧
      (iceberg_batches stage size batchSize
          (fun j => some (oid j, sz j, px j)) rands n i tf tc).subOrders.length
        = n ∧
      (iceberg_batches stage size batchSize
          (fun j => some (oid j, sz j, px j)) rands n i tf tc).sleeps =
        ((List.range n).map fun j => 3 + rands (i + j) * 4) ∧
      (iceberg_batches stage size batchSize
          (fun j => some (oid j, sz j, px j)) rands n i tf tc).totalFilled =
        tf + ((List.range n).map fun j => sz (i + j)).sum ∧
      (iceberg_batches stage size batchSize
          (fun j => some (oid j, sz j, px j)) rands n i tf tc).totalCost =
        tc + ((List.range n).map fun j => sz (i + j) * px (i + j)).sum := by
  intro n
  induction n with
  | zero =>
    intro i tf tc
    refine ⟨rfl, rfl, rfl, by simp [iceberg_batches], by simp [iceberg_batches]⟩
  | succ m ih =>
    intro i tf tc
    obtain ⟨ih1, ih2, ih3, ih4, ih5⟩ := ih (i + 1) (tf + sz i) (tc + sz i * px i)
    refine ⟨?_, ?_, ?_, ?_, ?_⟩
    · rw [range_map_succ_shift
        (fun j => stage ++ "_iceberg_" ++ toString (i + j + 1))
        (fun j => stage ++ "_iceberg_" ++ toString (i + 1 + j + 1)) m
        (fun j => by
          have harg : i + (j + 1) + 1 = i + 1 + j + 1 := by omega
          simp only [harg])]
      simp only [iceberg_batches, List.map_cons]
      exact List.cons_eq_cons.mpr ⟨rfl, ih1⟩
    · simp only [iceberg_batches, List.length_cons, ih2]
    · rw [range_map_succ_shift
        (fun j => 3 + rands (i + j) * 4)
        (fun j => 3 + rands (i + 1 + j) * 4) m
        (fun j => by
          have harg : i + (j + 1) = i + 1 + j := by omega
          simp only [harg])]
      simp only [iceberg_batches]
      exact List.cons_eq_cons.mpr ⟨rfl, ih3⟩
    · rw [range_map_succ_shift
        (fun j => sz (i + j)) (fun j => sz (i + 1 + j)) m
        (fun j => by
          have harg : i + (j + 1) = i + 1 + j := by omega
          simp only [harg])]
      simp only [iceberg_batches, List.sum_cons, Nat.add_zero]
      rw [ih4]
      ring
    · rw [range_map_succ_shift
        (fun j => sz (i + j) * px (i + j)) (fun j => sz (i + 1 + j) * px (i + 1 + j)) m
        (fun j => by
          have harg : i + (j + 1) = i + 1 + j := by omega
          simp only [harg])]
      simp only [iceberg_batches, List.sum_cons, Nat.add_zero]
      rw [ih5]
      ring

theorem iceberg_batch_count_pos (size threshold : ℚ) (hthr : 0 < threshold)
    (hsize : threshold < size) : 0 < iceberg_batch_count size threshold := by
  have h1 : (1 : ℚ) < size / threshold := (one_lt_div hthr).mpr hsize
  have h2 : (1 : ℤ) < ⌈size / threshold⌉ := Int.lt_ceil.mpr (by exact_mod_cast h1)
  have h3 : 0 < ⌈size / threshold⌉.toNat := by omega
  exact lt_min_iff.mpr ⟨by norm_num, h3⟩

/-- C7: an entry larger than the iceberg threshold, with every batch
succeeding, executes exactly `min(5, ceil(size / threshold))` batches with
stages suffixed `_iceberg_k` in order; a randomized sleep in `[3, 7)` seconds
separates consecutive batches; the reported price is the size-weighted
average of the filled batches; and the journal gains exactly one record
whose `sub_orders` has one element per successful batch. -/
theorem claim7_iceberg (symbol stage : String) (size price threshold : ℚ)
    (oid : Nat → String) (sz px : Nat → ℚ) (rands : Nat → ℚ)
    (defaultEx : String) (exch : Option String) (journal : List EntryRecord)
    (hthr : 0 < threshold) (hsize : threshold < size)
    (hsz : ∀ i, 0 < sz i) (hrand : ∀ i, 0 ≤ rands i ∧ rands i < 1) :
    (iceberg_run symbol stage size price threshold oid sz px
        rands).2.subOrders.length = iceberg_batch_count size threshold ∧
    (iceberg_run symbol stage size price threshold oid sz px
        rands).2.subOrders.map SubOrder.stage =
      ((List.range (iceberg_batch_count size threshold)).map fun j =>
        stage ++ "_iceberg_" ++ toString (j + 1)) ∧
    (iceberg_run symbol stage size price threshold oid sz px
        rands).2.sleeps.length = iceberg_batch_count size threshold ∧
    (∀ s ∈ (iceberg_run symbol stage size price threshold oid sz px
        rands).2.sleeps, 3 ≤ s ∧ s < 7) ∧
    (iceberg_run symbol stage size price threshold oid sz px
        rands).1.avgPrice =
      (((List.range (iceberg_batch_count size threshold)).map fun j =>
          sz j * px j).sum) /
        (((List.range (iceberg_batch_count size threshold)).map fun j =>
          sz j).sum) ∧
    log_entry_order defaultEx (iceberg_run symbol stage size price threshold
        oid sz px rands).1 exch journal =
      journal ++ [entry_record_of defaultEx (iceberg_run symbol stage size
        price threshold oid sz px rands).1 exch] ∧
    ((entry_record_of defaultEx (iceberg_run symbol stage size price
        threshold oid sz px rands).1 exch).subOrders.map List.length) =
      some (iceberg_batch_count size threshold) := by
  have hn := iceberg_batch_count_pos size threshold hthr hsize
  obtain ⟨c1, c2, c3, c4, c5⟩ := iceberg_batches_success stage size
    (size / (iceberg_batch_count size threshold : ℚ)) oid sz px rands
    (iceberg_batch_count size threshold) 0 0 0
  simp only [Nat.zero_add, zero_add] at c1 c2 c3 c4 c5
  have hpos : 0 < ((List.range (iceberg_batch_count size threshold)).map
      fun j => sz j).sum := by
    apply List.sum_pos
    · intro x hx
      obtain ⟨j, hj, rfl⟩ := List.mem_map.mp hx
      exact hsz j
    · apply List.ne_nil_of_length_pos
      simpa using hn
  refine ⟨?_, ?_, ?_, ?_, ?_, ?_, ?_⟩
  · simpa only [iceberg_run, execute_iceberg_entry] using c2
  · simpa only [iceberg_run, execute_iceberg_entry] using c1
  · simp only [iceberg_run, execute_iceberg_entry, c3]
    simp
  · intro s hs
    simp only [iceberg_run, execute_iceberg_entry, c3] at hs
    obtain ⟨j, hj, rfl⟩ := List.mem_map.mp hs
    obtain ⟨hr0, hr1⟩ := hrand j
    constructor
    · nlinarith
    · nlinarith
  · simp only [iceberg_run, execute_iceberg_entry, c4, c5]
    rw [if_pos hpos]
  · rfl
  · simp only [iceberg_run, execute_iceberg_entry, entry_record_of]
    exact congrArg some c2

/-- C7 witness: entry of size 25 with threshold 10 — three batches, each
sleep in `[3, 7)`, weighted-average price 100, and an appended record whose
`sub_orders` has three elements. -/
theorem claim7_iceberg_witness :
    iceberg_batch_count 25 10 = 3 ∧
    (iceberg_run "ETH/USDT" "first_stage" 25 100 10 (fun _ => "sub")
        (fun _ => 25 / 3) (fun _ => 100)
        (fun _ => 1 / 2)).2.subOrders.length = iceberg_batch_count 25 10 ∧
    (∀ s ∈ (iceberg_run "ETH/USDT" "first_stage" 25 100 10 (fun _ => "sub")
        (fun _ => 25 / 3) (fun _ => 100) (fun _ => 1 / 2)).2.sleeps,
      3 ≤ s ∧ s < 7) ∧
    ((entry_record_of "binance" (iceberg_run "ETH/USDT" "first_stage" 25 100
        10 (fun _ => "sub") (fun _ => 25 / 3) (fun _ => 100)
        (fun _ => 1 / 2)).1 none).subOrders.map List.length) =
      some (iceberg_batch_count 25 10) := by
  have h := claim7_iceberg "ETH/USDT" "first_stage" 25 100 10 (fun _ => "sub")
    (fun _ => 25 / 3) (fun _ => 100) (fun _ => 1 / 2) "binance" none []
    (by norm_num) (by norm_num) (fun i => by norm_num) (fun i => by norm_num)
  have hbc : iceberg_batch_count 25 10 = 3 := by
    have hc : (⌈(25 : ℚ) / 10⌉ : ℤ) = 3 := by
      rw [Int.ceil_eq_iff]
      norm_num
    have hm : (5 : ℕ) ⊓ 3 = 3 := by decide
    simp [iceberg_batch_count, hc, hm]
  exact ⟨hbc, h.1, h.2.2.2.1, h.2.2.2.2.2.2⟩

/-- C10: every successful iceberg entry result (no top-level `order_id`, an
`orders` list present) is journaled with `order_id = "multiple_orders"`; any
two iceberg journal records therefore share that identifier and cannot be
told apart when exits are matched to entries; and an entry record carrying
that identifier is an active position in the derived statistics exactly when
the `entry_order_id` of no exit record equals `"multiple_orders"`. -/
theorem claim10_iceberg_order_id (d d2 : String) (r r2 : EntryResult)
    (e e2 : Option String) (entries : List EntryRecord)
    (exits : List ExitRecord) (rec : EntryRecord)
    (hr : r.orderId = none) (ho : r.orders.isSome = true)
    (hr2 : r2.orderId = none) (ho2 : r2.orders.isSome = true)
    (hrec : rec ∈ entries) (hid : rec.orderId = "multiple_orders") :
    (entry_record_of d r e).orderId = "multiple_orders" ∧
    (entry_record_of d r e).orderId = (entry_record_of d2 r2 e2).orderId ∧
    (rec ∈ active_positions entries exits ↔
      ∀ x ∈ exits, x.entryOrderId ≠ some "multiple_orders") := by
  refine ⟨?_, ?_, ?_⟩
  · simp [entry_record_of, hr, ho]
  · simp [entry_record_of, hr, ho, hr2, ho2]
  · rw [active_positions, List.mem_filter]
    simp only [hrec, true_and, decide_eq_true_eq, hid]
    constructor
    · intro h x hx hcontra
      exact h.2 (by
        simp only [exitedOrderIds, List.mem_filterMap]
        exact ⟨x, hx, hcontra⟩)
    · intro h
      refine ⟨by simp, ?_⟩
      intro hmem
      simp only [exitedOrderIds, List.mem_filterMap] at hmem
      obtain ⟨x, hx, hx2⟩ := hmem
      exact h x hx hx2

/-- C10 witness: the statement applied to the concrete iceberg result
`icebergResultDemo`, journaled as `icebergRecordDemo`, with no exits. -/
theorem claim10_iceberg_order_id_witness :
    (entry_record_of "binance" icebergResultDemo none).orderId =
      "multiple_orders" ∧
    (icebergRecordDemo ∈ active_positions [icebergRecordDemo] [] ↔
      ∀ x ∈ ([] : List ExitRecord),
        x.entryOrderId ≠ some "multiple_orders") := by
  have h := claim10_iceberg_order_id "binance" "binance" icebergResultDemo
    icebergResultDemo none none [icebergRecordDemo] [] icebergRecordDemo
    rfl rfl rfl rfl (by simp) rfl
  exact ⟨h.1, h.2.2⟩

end Momentum
